import Mathlib

/-!
# FeatureStore API types (`infra/feast-operator/api/v1alpha1/featurestore_types.go`)

A shallow embedding of the `v1alpha1` FeatureStore types together with the
validation markers attached to them (`+kubebuilder:validation:XValidation`,
`Enum`, `Pattern`).  Every Go struct becomes a Lean structure with the same
field names, a pointer field becomes an `Option`, and every validation marker
becomes a rule over the value of the struct it is attached to; a rule
evaluates to a Boolean or fails with an evaluation error.

Conventions of the embedding:

* `has(self.f)` of a marker rule is `has self.f`, true exactly when the pointer
  field is non-nil;
* `self.path` selects the key `path` of the object; the field is tagged
  `json:"path,omitempty"`, so the key is absent exactly when the Go `string`
  is empty, and selecting an absent key is the evaluation error
  `no such key: path`;
* `c ? a : b` evaluates only the branch that `c` chooses; `&&` and `||` are
  decided by one side alone when that side is `false`, respectively `true`;
* `s.startsWith(p)` is `startsWith s p`, prefix comparison on the characters;
* a validator returns one violation for every rule that evaluates to `false`
  or fails to evaluate, in the order the markers are declared, and accepts
  exactly when that list is empty.
-/

namespace Feast

/-! ## Rule expressions used by the markers -/

/-- CEL `has(self.f)` on a pointer field: the field is present. -/
def has {α : Type} (field : Option α) : Bool :=
  field.isSome

/-- CEL `s.startsWith(p)`. -/
def startsWith (s p : String) : Bool :=
  p.toList.isPrefixOf s.toList

/-- CEL `l.exists_one(c, pred c)`: exactly one element of `l` satisfies `pred`. -/
def exists_one {α : Type} (l : List α) (pred : α → Bool) : Bool :=
  (l.filter pred).length == 1

/-- One violated rule: the JSON field path it was raised under (outermost
first) and the message of the marker. -/
structure Violation where
  field : List String
  message : String
deriving DecidableEq, Repr

/-- Re-root a violation of a sub-block under the field `name` of its parent. -/
def Violation.under (name : String) (v : Violation) : Violation :=
  { v with field := name :: v.field }

/-- CEL selection `self.name` of a string field tagged `omitempty`: the key is
absent from the object when the Go value is empty, and selecting an absent key
is an evaluation error. -/
def selectOmitEmpty (name value : String) : Except String String :=
  if value = "" then .error ("no such key: " ++ name) else .ok value

/-- CEL `s.startsWith(p)` on a selected value. -/
def celStartsWith (s : Except String String) (p : String) : Except String Bool :=
  match s with
  | .ok v => .ok (startsWith v p)
  | .error e => .error e

/-- CEL `!a`. -/
def celNot (a : Except String Bool) : Except String Bool :=
  match a with
  | .ok b => .ok (!b)
  | .error e => .error e

/-- CEL `a || b`: `true` as soon as one side is `true`, an error when a side
fails and the other does not decide. -/
def celOr (a b : Except String Bool) : Except String Bool :=
  match a, b with
  | .ok true, _ => .ok true
  | _, .ok true => .ok true
  | .ok false, .ok false => .ok false
  | .error e, _ => .error e
  | .ok false, .error e => .error e

/-- CEL `a && b`: `false` as soon as one side is `false`, an error when a side
fails and the other does not decide. -/
def celAnd (a b : Except String Bool) : Except String Bool :=
  match a, b with
  | .ok false, _ => .ok false
  | _, .ok false => .ok false
  | .ok true, .ok true => .ok true
  | .error e, _ => .error e
  | .ok true, .error e => .error e

/-- An `XValidation` marker: the rule and its message. -/
structure Rule (α : Type) where
  rule : α → Except String Bool
  message : String

/-- The outcome of one rule on `self`: nothing when it holds, its message when
it evaluates to `false`, the evaluation error (reported on the rule's message)
when it fails to evaluate. -/
def Rule.check {α : Type} (r : Rule α) (self : α) : List Violation :=
  match r.rule self with
  | .ok true => []
  | .ok false => [⟨[], r.message⟩]
  | .error e => [⟨[], e ++ " evaluated on rule: " ++ r.message⟩]

/-- All rules of `rules` that `self` violates, in declaration order. -/
def violations {α : Type} (rules : List (Rule α)) (self : α) : List Violation :=
  rules.flatMap (fun r => r.check self)

/-- Violations of an optional sub-block: none when the block is absent. -/
def validateOpt {α : Type} (name : String) (validate : α → List Violation) :
    Option α → List Violation
  | none => []
  | some a => (validate a).map (Violation.under name)

/-- An `Enum` marker: the value is one of the listed strings. -/
def enumRule (allowed : List String) (value : String) : List Violation :=
  if allowed.contains value then [] else [⟨[], "Unsupported value"⟩]

/-! ## Data model -/

/-- FeatureStoreRef defines which existing FeatureStore's registry should be used. -/
structure FeatureStoreRef where
  Name : String
  Namespace : String
deriving DecidableEq, Repr

/-- DefaultConfigs: k8s container settings that are applied by default. -/
structure DefaultConfigs where
  Image : Option String
deriving DecidableEq, Repr

/-- OptionalConfigs: k8s container settings that are optional.  The two core/v1
types are carried as uninterpreted strings. -/
structure OptionalConfigs where
  ImagePullPolicy : Option String
  Resources : Option String
deriving DecidableEq, Repr

/-- ServiceConfigs: k8s container settings (both blocks inlined). -/
structure ServiceConfigs extends DefaultConfigs, OptionalConfigs
deriving DecidableEq, Repr

/-- PvcStore: the volume claim a file persistence is mounted under.
`resource.Quantity` is carried as an uninterpreted string. -/
structure PvcStore where
  Name : String
  StorageClassName : Option String
  Storage : Option String
  MountPath : Option String
deriving DecidableEq, Repr

structure OnlineStoreFilePersistence where
  Path : String
  PvcStore : Option PvcStore
deriving DecidableEq, Repr

structure OfflineStoreFilePersistence where
  Type_ : String
  PvcStore : Option PvcStore
deriving DecidableEq, Repr

structure RegistryFilePersistence where
  Path : String
  PvcStore : Option PvcStore
  S3AddtlKwargs : Option (List (String × String))
deriving DecidableEq, Repr

structure OnlineStoreStorePersistence where
  Type_ : String
  SecretRef : String
deriving DecidableEq, Repr

structure OfflineStoreStorePersistence where
  Type_ : String
  SecretRef : String
deriving DecidableEq, Repr

structure RegistryStorePersistence where
  Type_ : String
  SecretRef : String
deriving DecidableEq, Repr

structure OnlineStorePersistence where
  FilePersistence : Option OnlineStoreFilePersistence
  StorePersistence : Option OnlineStoreStorePersistence
deriving DecidableEq, Repr

structure OfflineStorePersistence where
  FilePersistence : Option OfflineStoreFilePersistence
  StorePersistence : Option OfflineStoreStorePersistence
deriving DecidableEq, Repr

structure RegistryPersistence where
  FilePersistence : Option RegistryFilePersistence
  StorePersistence : Option RegistryStorePersistence
deriving DecidableEq, Repr

/-- OfflineStore configures the deployed offline store service. -/
structure OfflineStore extends ServiceConfigs where
  Persistence : Option OfflineStorePersistence
deriving DecidableEq, Repr

/-- OnlineStore configures the deployed online store service. -/
structure OnlineStore extends ServiceConfigs where
  Persistence : Option OnlineStorePersistence
deriving DecidableEq, Repr

/-- LocalRegistryConfig configures the deployed registry service. -/
structure LocalRegistryConfig extends ServiceConfigs where
  Persistence : Option RegistryPersistence
deriving DecidableEq, Repr

/-- RemoteRegistryConfig points to a remote feast registry server. -/
structure RemoteRegistryConfig where
  Hostname : Option String
  FeastRef : Option FeatureStoreRef
deriving DecidableEq, Repr

/-- Registry configures the registry service. One selection is required. -/
structure Registry where
  Local : Option LocalRegistryConfig
  Remote : Option RemoteRegistryConfig
deriving DecidableEq, Repr

/-- FeatureStoreServices defines the desired feast service deployments. -/
structure FeatureStoreServices where
  OfflineStore : Option OfflineStore
  OnlineStore : Option OnlineStore
  Registry : Option Registry
deriving DecidableEq, Repr

/-- FeatureStoreSpec defines the desired state of FeatureStore. -/
structure FeatureStoreSpec where
  FeastProject : String
  Services : Option FeatureStoreServices
deriving DecidableEq, Repr

/-! ## Validators: one per struct, from the markers on it -/

/-- Enum marker of `OnlineStoreStorePersistence.Type`. -/
def OnlineStoreStorePersistence.typeEnum : List String :=
  ["snowflake", "redis", "ikv", "datastore", "dynamodb", "bigtable", "postgres",
   "cassandra", "mysql", "hazelcast", "singlestore"]

/-- Enum marker of `OfflineStoreStorePersistence.Type`. -/
def OfflineStoreStorePersistence.typeEnum : List String :=
  ["snowflake", "bigquery", "redshift", "spark", "postgres", "trino", "mssql"]

/-- Enum marker of `RegistryStorePersistence.Type`. -/
def RegistryStorePersistence.typeEnum : List String :=
  ["sql", "snowflake"]

/-- Enum marker of `OfflineStoreFilePersistence.Type`. -/
def OfflineStoreFilePersistence.typeEnum : List String :=
  ["dask", "duckdb"]

/-- The field `type` is required: its value is always checked against the enum. -/
def OnlineStoreStorePersistence.validate (self : OnlineStoreStorePersistence) :
    List Violation :=
  (enumRule OnlineStoreStorePersistence.typeEnum self.Type_).map (Violation.under "type")

def OfflineStoreStorePersistence.validate (self : OfflineStoreStorePersistence) :
    List Violation :=
  (enumRule OfflineStoreStorePersistence.typeEnum self.Type_).map (Violation.under "type")

def RegistryStorePersistence.validate (self : RegistryStorePersistence) :
    List Violation :=
  (enumRule RegistryStorePersistence.typeEnum self.Type_).map (Violation.under "type")

/-- The three `XValidation` markers on `OnlineStoreFilePersistence`. -/
def OnlineStoreFilePersistence.rules : List (Rule OnlineStoreFilePersistence) :=
  [ { rule := fun self =>
        if !has self.PvcStore then
          celStartsWith (selectOmitEmpty "path" self.Path) "/"
        else .ok true
      message := "Ephemeral stores must have absolute paths." },
    { rule := fun self =>
        if has self.PvcStore then
          celNot (celStartsWith (selectOmitEmpty "path" self.Path) "/")
        else .ok true
      message := "PVC path must be a file name only, with no slashes." },
    { rule := fun self =>
        celAnd (celNot (celStartsWith (selectOmitEmpty "path" self.Path) "s3://"))
          (celNot (celStartsWith (selectOmitEmpty "path" self.Path) "gs://"))
      message := "Online store does not support S3 or GS buckets." } ]

def OnlineStoreFilePersistence.validate (self : OnlineStoreFilePersistence) :
    List Violation :=
  violations OnlineStoreFilePersistence.rules self

/-- The struct `OfflineStoreFilePersistence` carries no `XValidation` marker and no path:
only the enum on its optional `type` (an omitted `type` is the empty string
and is not checked). -/
def OfflineStoreFilePersistence.validate (self : OfflineStoreFilePersistence) :
    List Violation :=
  if self.Type_ = "" then []
  else (enumRule OfflineStoreFilePersistence.typeEnum self.Type_).map (Violation.under "type")

/-- The four `XValidation` markers on `RegistryFilePersistence`. -/
def RegistryFilePersistence.rules : List (Rule RegistryFilePersistence) :=
  [ { rule := fun self =>
        if !has self.PvcStore then
          celOr
            (celOr (celStartsWith (selectOmitEmpty "path" self.Path) "/")
              (celStartsWith (selectOmitEmpty "path" self.Path) "s3://"))
            (celStartsWith (selectOmitEmpty "path" self.Path) "gs://")
        else .ok true
      message := "Ephemeral stores must have absolute paths." },
    { rule := fun self =>
        if has self.PvcStore then
          celNot (celStartsWith (selectOmitEmpty "path" self.Path) "/")
        else .ok true
      message := "PVC path must be a file name only, with no slashes." },
    { rule := fun self =>
        if has self.PvcStore then
          celNot
            (celOr (celStartsWith (selectOmitEmpty "path" self.Path) "s3://")
              (celStartsWith (selectOmitEmpty "path" self.Path) "gs://"))
        else .ok true
      message := "PVC persistence does not support S3 or GS buckets." },
    { rule := fun self =>
        if has self.S3AddtlKwargs then
          celStartsWith (selectOmitEmpty "path" self.Path) "s3://"
        else .ok true
      message := "Additional S3 settings are available only for S3 buckets." } ]

def RegistryFilePersistence.validate (self : RegistryFilePersistence) :
    List Violation :=
  violations RegistryFilePersistence.rules self

/-- The two `XValidation` markers on `OnlineStorePersistence`. -/
def OnlineStorePersistence.rules : List (Rule OnlineStorePersistence) :=
  [ { rule := fun self => .ok (!(has self.FilePersistence && has self.StorePersistence))
      message := "One file or store persistence is allowed." },
    { rule := fun self => .ok (has self.FilePersistence || has self.StorePersistence)
      message := "Either file or store persistence are required." } ]

/-- The two `XValidation` markers on `OfflineStorePersistence`. -/
def OfflineStorePersistence.rules : List (Rule OfflineStorePersistence) :=
  [ { rule := fun self => .ok (!(has self.FilePersistence && has self.StorePersistence))
      message := "One file or store persistence is allowed." },
    { rule := fun self => .ok (has self.FilePersistence || has self.StorePersistence)
      message := "Either file or store persistence are required." } ]

/-- The two `XValidation` markers on `RegistryPersistence`. -/
def RegistryPersistence.rules : List (Rule RegistryPersistence) :=
  [ { rule := fun self => .ok (!(has self.FilePersistence && has self.StorePersistence))
      message := "One file or store persistence is allowed." },
    { rule := fun self => .ok (has self.FilePersistence || has self.StorePersistence)
      message := "Either file or store persistence are required." } ]

def OnlineStorePersistence.validate (self : OnlineStorePersistence) : List Violation :=
  violations OnlineStorePersistence.rules self
    ++ validateOpt "file" OnlineStoreFilePersistence.validate self.FilePersistence
    ++ validateOpt "store" OnlineStoreStorePersistence.validate self.StorePersistence

def OfflineStorePersistence.validate (self : OfflineStorePersistence) : List Violation :=
  violations OfflineStorePersistence.rules self
    ++ validateOpt "file" OfflineStoreFilePersistence.validate self.FilePersistence
    ++ validateOpt "store" OfflineStoreStorePersistence.validate self.StorePersistence

def RegistryPersistence.validate (self : RegistryPersistence) : List Violation :=
  violations RegistryPersistence.rules self
    ++ validateOpt "file" RegistryFilePersistence.validate self.FilePersistence
    ++ validateOpt "store" RegistryStorePersistence.validate self.StorePersistence

def OfflineStore.validate (self : OfflineStore) : List Violation :=
  validateOpt "persistence" OfflineStorePersistence.validate self.Persistence

def OnlineStore.validate (self : OnlineStore) : List Violation :=
  validateOpt "persistence" OnlineStorePersistence.validate self.Persistence

def LocalRegistryConfig.validate (self : LocalRegistryConfig) : List Violation :=
  validateOpt "persistence" RegistryPersistence.validate self.Persistence

/-- The `XValidation` marker on `RemoteRegistryConfig`. -/
def RemoteRegistryConfig.rules : List (Rule RemoteRegistryConfig) :=
  [ { rule := fun self => .ok (exists_one [has self.Hostname, has self.FeastRef] (fun c => c))
      message := "One selection required." } ]

def RemoteRegistryConfig.validate (self : RemoteRegistryConfig) : List Violation :=
  violations RemoteRegistryConfig.rules self

/-- The `XValidation` marker on `Registry`. -/
def Registry.rules : List (Rule Registry) :=
  [ { rule := fun self => .ok (exists_one [has self.Local, has self.Remote] (fun c => c))
      message := "One selection required." } ]

def Registry.validate (self : Registry) : List Violation :=
  violations Registry.rules self
    ++ validateOpt "local" LocalRegistryConfig.validate self.Local
    ++ validateOpt "remote" RemoteRegistryConfig.validate self.Remote

def FeatureStoreServices.validate (self : FeatureStoreServices) : List Violation :=
  validateOpt "offlineStore" OfflineStore.validate self.OfflineStore
    ++ validateOpt "onlineStore" OnlineStore.validate self.OnlineStore
    ++ validateOpt "registry" Registry.validate self.Registry

/-! ## File persistence, over the three kinds -/

/-- A file-persistence block of one of the three service kinds. -/
inductive FilePersistence where
  | online (f : OnlineStoreFilePersistence)
  | offline (f : OfflineStoreFilePersistence)
  | registry (f : RegistryFilePersistence)
deriving DecidableEq, Repr

/-- The `path` of the block; the offline struct has no such field. -/
def FilePersistence.path? : FilePersistence → Option String
  | .online f => some f.Path
  | .offline _ => none
  | .registry f => some f.Path

/-- The `pvc` of the block. -/
def FilePersistence.pvc : FilePersistence → Option PvcStore
  | .online f => f.PvcStore
  | .offline f => f.PvcStore
  | .registry f => f.PvcStore

/-- The block is of the Offline or the Registry kind. -/
def FilePersistence.offlineOrRegistry : FilePersistence → Bool
  | .online _ => false
  | .offline _ => true
  | .registry _ => true

/-- The block carries an `s3_additional_kwargs` map (registry only). -/
def FilePersistence.hasS3AddtlKwargs : FilePersistence → Bool
  | .registry f => has f.S3AddtlKwargs
  | _ => false

def FilePersistence.validate : FilePersistence → List Violation
  | .online f => f.validate
  | .offline f => f.validate
  | .registry f => f.validate

/-! ## The `Pattern` marker on `FeastProject` -/

/-- The regular expressions a `Pattern` marker is written with (the fragment
used in this file): bracket expressions of character ranges, concatenation,
alternation and repetition. -/
inductive Regex where
  | empty : Regex
  | eps : Regex
  | cls : List (Char × Char) → Regex
  | seq : Regex → Regex → Regex
  | alt : Regex → Regex → Regex
  | star : Regex → Regex
deriving Repr

/-- The character `c` lies in one of the ranges of a bracket expression. -/
def inClass (ranges : List (Char × Char)) (c : Char) : Bool :=
  ranges.any (fun r => decide (r.1 ≤ c) && decide (c ≤ r.2))

/-- The expression matches the empty string. -/
def Regex.nullable : Regex → Bool
  | .empty => false
  | .eps => true
  | .cls _ => false
  | .seq a b => a.nullable && b.nullable
  | .alt a b => a.nullable || b.nullable
  | .star _ => true

/-- Brzozowski derivative: what remains to be matched after reading `c`. -/
def Regex.deriv : Regex → Char → Regex
  | .empty, _ => .empty
  | .eps, _ => .empty
  | .cls ranges, c => if inClass ranges c then .eps else .empty
  | .seq a b, c =>
      if a.nullable then .alt (.seq (a.deriv c) b) (b.deriv c)
      else .seq (a.deriv c) b
  | .alt a b, c => .alt (a.deriv c) (b.deriv c)
  | .star a, c => .seq (a.deriv c) (.star a)

/-- Anchored match (`^r$`) of a whole character sequence. -/
def Regex.matchAll (r : Regex) : List Char → Bool
  | [] => r.nullable
  | c :: cs => (r.deriv c).matchAll cs

/-- The bracket expression `[A-Za-z0-9]`. -/
def alnumClass : List (Char × Char) :=
  [('A', 'Z'), ('a', 'z'), ('0', '9')]

/-- The bracket expression `[A-Za-z0-9_]`. -/
def wordClass : List (Char × Char) :=
  [('A', 'Z'), ('a', 'z'), ('0', '9'), ('_', '_')]

/-- The pattern `^[A-Za-z0-9][A-Za-z0-9_]*$` of `FeastProject`; the two anchors
are the whole-string match of `Regex.matchAll`. -/
def feastProjectPattern : Regex :=
  .seq (.cls alnumClass) (.star (.cls wordClass))

/-- A `Pattern` marker: the whole value matches the expression. -/
def patternRule (r : Regex) (value : String) : List Violation :=
  if r.matchAll value.toList then [] else [⟨[], "Invalid value: should match the pattern"⟩]

/-- The field `feastProject` is required: its value is always checked. -/
def FeatureStoreSpec.validate (self : FeatureStoreSpec) : List Violation :=
  (patternRule feastProjectPattern self.FeastProject).map (Violation.under "feastProject")
    ++ validateOpt "services" FeatureStoreServices.validate self.Services

/-- The Configuration Validator: accept exactly when no rule is violated. -/
def FeatureStoreSpec.accepts (self : FeatureStoreSpec) : Bool :=
  self.validate.isEmpty

/-! ## Phases, condition types, reasons and messages -/

def ReadyPhase : String := "Ready"
def PendingPhase : String := "Pending"
def FailedPhase : String := "Failed"

def ClientReadyType : String := "Client"
def OfflineStoreReadyType : String := "OfflineStore"
def OnlineStoreReadyType : String := "OnlineStore"
def RegistryReadyType : String := "Registry"
def ReadyType : String := "FeatureStore"

def ReadyReason : String := "Ready"
def FailedReason : String := "FeatureStoreFailed"
def OfflineStoreFailedReason : String := "OfflineStoreDeploymentFailed"
def OnlineStoreFailedReason : String := "OnlineStoreDeploymentFailed"
def RegistryFailedReason : String := "RegistryDeploymentFailed"
def ClientFailedReason : String := "ClientDeploymentFailed"

def ReadyMessage : String := "FeatureStore installation complete"
def OfflineStoreReadyMessage : String := "Offline Store installation complete"
def OnlineStoreReadyMessage : String := "Online Store installation complete"
def RegistryReadyMessage : String := "Registry installation complete"
def ClientReadyMessage : String := "Client installation complete"

def SerializationVersion : Nat := 3

/-! ## Observed state -/

/-- The `metav1.ConditionStatus` values. -/
inductive ConditionStatus where
  | ConditionTrue
  | ConditionFalse
  | ConditionUnknown
deriving DecidableEq, Repr

/-- The fields of `metav1.Condition` the readiness model uses. -/
structure Condition where
  Type_ : String
  Status : ConditionStatus
  Reason : String
  Message : String
  LastTransitionTime : Nat
deriving DecidableEq, Repr

/-- ServiceHostnames defines the service hostnames. -/
structure ServiceHostnames where
  OfflineStore : String
  OnlineStore : String
  Registry : String
deriving DecidableEq, Repr

/-- FeatureStoreStatus defines the observed state of FeatureStore. -/
structure FeatureStoreStatus where
  Applied : FeatureStoreSpec
  ClientConfigMap : String
  Conditions : List Condition
  FeastVersion : String
  Phase : String
  ServiceHostnames : ServiceHostnames
deriving DecidableEq, Repr

/-! ## Readiness aggregation

The code that folds subsystem reports into `FeatureStoreStatus` lives in the
operator's controller package, outside this API package.  The definitions of
this section follow the specification of the Readiness Aggregator; they use the
constants and the status type above. -/

/-- Modelled from the spec: the service selection of a configuration, "zero or
more of OfflineStore, OnlineStore, Registry" (the controller code that derives
it from the applied configuration is missing). -/
structure ServiceSelection where
  offlineStore : Bool
  onlineStore : Bool
  registry : Bool
deriving DecidableEq, Repr

/-- Modelled from the spec: the subsystems that participate in the aggregate
(the controller code is missing).  They are listed in the fixed priority order
Registry, OfflineStore, OnlineStore, Client.  The three services participate
when the configuration selects them; the Client is not a selectable service and
always participates (its report is accepted under a configuration that "enables
OnlineStore + Registry only"). -/
def enabledSubsystems (sel : ServiceSelection) : List String :=
  (if sel.registry then [RegistryReadyType] else [])
    ++ (if sel.offlineStore then [OfflineStoreReadyType] else [])
    ++ (if sel.onlineStore then [OnlineStoreReadyType] else [])
    ++ [ClientReadyType]

/-- Modelled from the spec: a subsystem outcome report, the tuple
(ConditionType, succeeded, detail) (the controller code is missing). -/
structure Report where
  ConditionType : String
  succeeded : Bool
  detail : String
deriving DecidableEq, Repr

/-- Modelled from the spec: the programming-error signal raised for a malformed
report (the controller code is missing). -/
inductive AggregatorError where
  | ProtocolError (conditionType : String)
deriving DecidableEq, Repr

/-- Modelled from the spec: the success message of a subsystem, its
"installation complete" constant (the controller code is missing). -/
def readyMessage (conditionType : String) : String :=
  if conditionType = ClientReadyType then ClientReadyMessage
  else if conditionType = OfflineStoreReadyType then OfflineStoreReadyMessage
  else if conditionType = OnlineStoreReadyType then OnlineStoreReadyMessage
  else if conditionType = RegistryReadyType then RegistryReadyMessage
  else ReadyMessage

/-- Modelled from the spec: the subsystem-specific failure reason (the
controller code is missing). -/
def failedReason (conditionType : String) : String :=
  if conditionType = ClientReadyType then ClientFailedReason
  else if conditionType = OfflineStoreReadyType then OfflineStoreFailedReason
  else if conditionType = OnlineStoreReadyType then OnlineStoreFailedReason
  else if conditionType = RegistryReadyType then RegistryFailedReason
  else FailedReason

/-- Modelled from the spec: the condition a report sets (the controller code is
missing): on success True/Ready with the "installation complete" message, on
failure False with the subsystem's failure reason and the reported detail. -/
def reportCondition (r : Report) (now : Nat) : Condition :=
  if r.succeeded then
    { Type_ := r.ConditionType, Status := .ConditionTrue, Reason := ReadyReason,
      Message := readyMessage r.ConditionType, LastTransitionTime := now }
  else
    { Type_ := r.ConditionType, Status := .ConditionFalse,
      Reason := failedReason r.ConditionType, Message := r.detail,
      LastTransitionTime := now }

/-- Modelled from the spec: look a condition up by type (the controller code is
missing). -/
def findStatusCondition (conds : List Condition) (conditionType : String) :
    Option Condition :=
  conds.find? (fun c => c.Type_ = conditionType)

/-- Modelled from the spec: the lifecycle of a condition (the controller code is
missing): created the first time its subsystem reports, afterwards overwritten
in place, the transition time changing only when the status value changes. -/
def setStatusCondition : List Condition → Condition → List Condition
  | [], new => [new]
  | c :: rest, new =>
      if c.Type_ = new.Type_ then
        { new with
            LastTransitionTime :=
              if c.Status = new.Status then c.LastTransitionTime
              else new.LastTransitionTime } :: rest
      else c :: setStatusCondition rest new

/-- Modelled from the spec: the status value of a subsystem's condition,
Unknown while the subsystem has not reported (the controller code is missing). -/
def conditionStatus (conds : List Condition) (conditionType : String) :
    ConditionStatus :=
  match findStatusCondition conds conditionType with
  | some c => c.Status
  | none => .ConditionUnknown

/-- Modelled from the spec: the overall phase (the controller code is missing):
Failed if any enabled subsystem's condition is False, else Ready if all enabled
subsystems' conditions are True, else Pending. -/
def aggregatePhase (enabled : List String) (conds : List Condition) : String :=
  if enabled.any (fun t => conditionStatus conds t == .ConditionFalse) then FailedPhase
  else if enabled.all (fun t => conditionStatus conds t == .ConditionTrue) then ReadyPhase
  else PendingPhase

/-- Modelled from the spec: the status before any report (the controller code is
missing): no conditions, phase Pending. -/
def initialStatus (applied : FeatureStoreSpec) : FeatureStoreStatus :=
  { Applied := applied, ClientConfigMap := "", Conditions := [], FeastVersion := "",
    Phase := PendingPhase, ServiceHostnames := ⟨"", "", ""⟩ }

/-- Modelled from the spec: the per-report transition (the controller code is
missing).  A report for an unknown or a not enabled subsystem is rejected and
leaves the status untouched; any other report overwrites its condition and the
phase is recomputed at once. -/
def report (sel : ServiceSelection) (st : FeatureStoreStatus) (now : Nat) (r : Report) :
    Except AggregatorError FeatureStoreStatus :=
  if (enabledSubsystems sel).contains r.ConditionType then
    let conds := setStatusCondition st.Conditions (reportCondition r now)
    .ok { st with Conditions := conds, Phase := aggregatePhase (enabledSubsystems sel) conds }
  else
    .error (.ProtocolError r.ConditionType)

/-- Modelled from the spec: the status after a stream of timed reports (the
controller code is missing); a rejected report changes nothing. -/
def reportAll (sel : ServiceSelection) (st : FeatureStoreStatus) (rs : List (Nat × Report)) :
    FeatureStoreStatus :=
  rs.foldl
    (fun st tr =>
      match report sel st tr.1 tr.2 with
      | .ok st2 => st2
      | .error _ => st)
    st

/-- Modelled from the spec: the "latest reported outcome per subsystem" of a
stream of reports, `none` when the subsystem has not reported (the controller
code is missing). -/
def latestOutcome (rs : List (Nat × Report)) (conditionType : String) : Option Bool :=
  ((rs.reverse.find? (fun tr => tr.2.ConditionType = conditionType)).map
    (fun tr => tr.2.succeeded))

/-- Modelled from the spec: the condition status a latest outcome stands for,
True after a success, False after a failure, Unknown before any report (the
controller code is missing). -/
def outcomeStatus : Option Bool → ConditionStatus
  | some true => .ConditionTrue
  | some false => .ConditionFalse
  | none => .ConditionUnknown

end Feast

namespace Feast

/-! ## Helper lemmas -/

theorem map_under_eq_nil (name : String) (l : List Violation) :
    l.map (Violation.under name) = [] ↔ l = [] := by
  cases l <;> simp

theorem validateOpt_some_eq_nil {α : Type} (name : String) (validate : α → List Violation)
    (a : α) : validateOpt name validate (some a) = [] ↔ validate a = [] := by
  simp [validateOpt]

theorem enumRule_eq_nil (allowed : List String) (value : String) :
    enumRule allowed value = [] ↔ value ∈ allowed := by
  unfold enumRule
  by_cases h : value ∈ allowed <;> simp [h]

theorem check_eq_nil {α : Type} (r : Rule α) (self : α) :
    r.check self = [] ↔ r.rule self = .ok true := by
  unfold Rule.check
  cases h : r.rule self with
  | error e => simp
  | ok b => cases b <;> simp

theorem check_of_ok {α : Type} (r : Rule α) (self : α) (b : Bool)
    (h : r.rule self = .ok b) :
    r.check self = if b then [] else [⟨[], r.message⟩] := by
  unfold Rule.check
  rw [h]
  cases b <;> rfl

theorem check_of_error {α : Type} (r : Rule α) (self : α) (e : String)
    (h : r.rule self = .error e) :
    r.check self = [⟨[], e ++ " evaluated on rule: " ++ r.message⟩] := by
  unfold Rule.check
  rw [h]

theorem field_of_mem_check {α : Type} (r : Rule α) (self : α) (v : Violation)
    (h : v ∈ r.check self) : v.field = [] := by
  unfold Rule.check at h
  cases hr : r.rule self with
  | error e =>
    rw [hr] at h
    simp at h
    rw [h]
  | ok b =>
    rw [hr] at h
    cases b
    · simp at h
      rw [h]
    · simp at h

theorem violations_eq_nil {α : Type} (rules : List (Rule α)) (self : α) :
    violations rules self = [] ↔ ∀ r ∈ rules, r.rule self = .ok true := by
  simp [violations, List.flatMap_eq_nil_iff, check_eq_nil]

theorem mem_violations {α : Type} (rules : List (Rule α)) (self : α) (v : Violation) :
    v ∈ violations rules self ↔ ∃ r ∈ rules, v ∈ r.check self := by
  simp [violations, List.mem_flatMap]

theorem field_of_mem_violations {α : Type} (rules : List (Rule α)) (self : α)
    (v : Violation) (h : v ∈ violations rules self) : v.field = [] := by
  obtain ⟨r, _, hv⟩ := (mem_violations rules self v).mp h
  exact field_of_mem_check r self v hv

theorem violations_cons {α : Type} (r : Rule α) (rules : List (Rule α)) (self : α) :
    violations (r :: rules) self = r.check self ++ violations rules self := by
  simp [violations]

theorem violations_nil {α : Type} (self : α) :
    violations ([] : List (Rule α)) self = [] := rfl

theorem field_of_mem_validateOpt {α : Type} (name : String)
    (validate : α → List Violation) (o : Option α) (v : Violation)
    (h : v ∈ validateOpt name validate o) : v.field ≠ [] := by
  cases o with
  | none => simp [validateOpt] at h
  | some a =>
    simp only [validateOpt, List.mem_map] at h
    obtain ⟨w, _, rfl⟩ := h
    simp [Violation.under]

theorem selectOmitEmpty_of_ne (name value : String) (h : value ≠ "") :
    selectOmitEmpty name value = .ok value := by
  simp [selectOmitEmpty, h]

theorem selectOmitEmpty_empty (name : String) :
    selectOmitEmpty name "" = .error ("no such key: " ++ name) := by
  simp [selectOmitEmpty]

theorem celStartsWith_ok (v p : String) :
    celStartsWith (.ok v) p = .ok (startsWith v p) := rfl

theorem celStartsWith_error (e p : String) :
    celStartsWith (.error e) p = .error e := rfl

theorem celNot_ok (b : Bool) : celNot (.ok b) = .ok (!b) := rfl

theorem celNot_error (e : String) : celNot (.error e) = .error e := rfl

theorem celOr_ok (a b : Bool) : celOr (.ok a) (.ok b) = .ok (a || b) := by
  cases a <;> cases b <;> rfl

theorem celOr_error (e f : String) : celOr (.error e) (.error f) = .error e := rfl

theorem celAnd_ok (a b : Bool) : celAnd (.ok a) (.ok b) = .ok (a && b) := by
  cases a <;> cases b <;> rfl

theorem celAnd_error (e f : String) : celAnd (.error e) (.error f) = .error e := rfl

theorem ne_empty_of_startsWith (s p : String) (hp : p ≠ "")
    (h : startsWith s p = true) : s ≠ "" := by
  rintro rfl
  apply hp
  unfold startsWith at h
  have hs : "".toList = [] := rfl
  rw [hs] at h
  cases hl : p.toList with
  | nil =>
    cases p with
    | mk d =>
      have hd : d = [] := hl
      subst hd
      rfl
  | cons c cs =>
    rw [hl] at h
    simp [List.isPrefixOf] at h

theorem startsWith_slash (p : String) :
    startsWith p "/" = true ↔ p.toList.head? = some '/' := by
  unfold startsWith
  have h : "/".toList = ['/'] := rfl
  rw [h]
  cases p.toList with
  | nil => simp [List.isPrefixOf]
  | cons c cs => simp [List.isPrefixOf]; exact eq_comm

theorem not_bucket_of_absolute (p : String) (h : startsWith p "/" = true) :
    startsWith p "s3://" = false ∧ startsWith p "gs://" = false := by
  unfold startsWith at *
  have h1 : "/".toList = ['/'] := rfl
  have h2 : "s3://".toList = ['s', '3', ':', '/', '/'] := rfl
  have h3 : "gs://".toList = ['g', 's', ':', '/', '/'] := rfl
  rw [h1] at h
  rw [h2, h3]
  cases hp : p.toList with
  | nil => rw [hp] at h; simp [List.isPrefixOf] at h
  | cons c cs =>
    rw [hp] at h
    simp [List.isPrefixOf] at h
    subst h
    simp [List.isPrefixOf]

theorem char_le_iff (a b : Char) : a ≤ b ↔ a.val ≤ b.val := Iff.rfl

theorem inClass_alnum (c : Char) :
    inClass alnumClass c = (c.isAlpha || c.isDigit) := by
  have hA : 'A'.val = 65 := rfl
  have hZ : 'Z'.val = 90 := rfl
  have ha : 'a'.val = 97 := rfl
  have hz : 'z'.val = 122 := rfl
  have h0 : '0'.val = 48 := rfl
  have h9 : '9'.val = 57 := rfl
  simp only [inClass, alnumClass, List.any_cons, List.any_nil, Bool.or_false, char_le_iff,
    Char.isAlpha, Char.isUpper, Char.isLower, Char.isDigit, hA, hZ, ha, hz, h0, h9, ge_iff_le,
    Bool.decide_and, Bool.or_assoc]

theorem inClass_word (c : Char) :
    inClass wordClass c = (c.isAlpha || c.isDigit || decide (c = '_')) := by
  have hA : 'A'.val = 65 := rfl
  have hZ : 'Z'.val = 90 := rfl
  have ha : 'a'.val = 97 := rfl
  have hz : 'z'.val = 122 := rfl
  have h0 : '0'.val = 48 := rfl
  have h9 : '9'.val = 57 := rfl
  have hu : (decide ('_' ≤ c) && decide (c ≤ '_')) = decide (c = '_') := by
    rw [← Bool.decide_and]
    congr 1
    apply propext
    constructor
    · rintro ⟨h1, h2⟩
      exact Char.le_antisymm h2 h1
    · rintro rfl
      exact ⟨Char.le_refl _, Char.le_refl _⟩
  simp only [inClass, wordClass, List.any_cons, List.any_nil, Bool.or_false, hu]
  simp only [char_le_iff,
    Char.isAlpha, Char.isUpper, Char.isLower, Char.isDigit, hA, hZ, ha, hz, h0, h9, ge_iff_le,
    Bool.decide_and, Bool.or_assoc]

theorem matchAll_empty (s : List Char) : Regex.empty.matchAll s = false := by
  induction s with
  | nil => rfl
  | cons c cs ih => simpa [Regex.matchAll, Regex.deriv] using ih

theorem matchAll_alt (a b : Regex) (s : List Char) :
    (Regex.alt a b).matchAll s = (a.matchAll s || b.matchAll s) := by
  induction s generalizing a b with
  | nil => rfl
  | cons c cs ih => simp [Regex.matchAll, Regex.deriv, ih]

theorem matchAll_seq_empty (r : Regex) (s : List Char) :
    (Regex.seq .empty r).matchAll s = false := by
  induction s with
  | nil => rfl
  | cons c cs ih => simpa [Regex.matchAll, Regex.deriv, Regex.nullable] using ih

theorem matchAll_seq_eps_star_cls (ranges : List (Char × Char)) (s : List Char) :
    (Regex.seq .eps (.star (.cls ranges))).matchAll s = s.all (inClass ranges) := by
  induction s with
  | nil => rfl
  | cons c cs ih =>
    simp only [Regex.matchAll, Regex.deriv, Regex.nullable, if_true, matchAll_alt,
      matchAll_seq_empty, Bool.false_or, List.all_cons]
    by_cases h : inClass ranges c = true
    · simp [h, ih]
    · simp [h, matchAll_seq_empty]

theorem matchAll_feastProjectPattern (s : List Char) :
    feastProjectPattern.matchAll s =
      match s with
      | [] => false
      | c :: cs => inClass alnumClass c && cs.all (inClass wordClass) := by
  cases s with
  | nil => rfl
  | cons c cs =>
    simp only [feastProjectPattern, Regex.matchAll, Regex.deriv, Regex.nullable]
    by_cases h : inClass alnumClass c = true
    · simp [h, matchAll_seq_eps_star_cls]
    · simp [h, matchAll_seq_empty]



theorem toList_eq_nil (p : String) : p.toList = [] ↔ p = "" := by
  constructor
  · intro h
    cases p with
    | mk d =>
      have hd : d = [] := h
      subst hd
      rfl
  · rintro rfl
    rfl

theorem patternRule_eq_nil (r : Regex) (p : String) :
    patternRule r p = [] ↔ r.matchAll p.toList = true := by
  unfold patternRule
  by_cases h : r.matchAll p.toList = true <;> simp [h]

theorem conditionStatus_setStatusCondition (conds : List Condition) (new : Condition)
    (t : String) :
    conditionStatus (setStatusCondition conds new) t =
      if new.Type_ = t then new.Status else conditionStatus conds t := by
  induction conds with
  | nil =>
    by_cases h : new.Type_ = t <;>
      simp [setStatusCondition, conditionStatus, findStatusCondition, List.find?, h]
  | cons c rest ih =>
    unfold setStatusCondition
    by_cases hc : c.Type_ = new.Type_
    · by_cases h : new.Type_ = t
      · simp [hc, h, conditionStatus, findStatusCondition, List.find?]
      · have h2 : ¬ c.Type_ = t := by rw [hc]; exact h
        simp [hc, h, h2, conditionStatus, findStatusCondition, List.find?]
    · rw [if_neg hc]
      by_cases hct : c.Type_ = t
      · have h : ¬ new.Type_ = t := by
          intro h; exact hc (hct.trans h.symm)
        simp [hct, h, conditionStatus, findStatusCondition, List.find?]
      · have ih2 := ih
        simp only [conditionStatus, findStatusCondition] at ih2 ⊢
        simp only [List.find?, hct, decide_False]
        exact ih2

theorem reportCondition_type (r : Report) (now : Nat) :
    (reportCondition r now).Type_ = r.ConditionType := by
  unfold reportCondition; split <;> rfl

theorem reportCondition_status (r : Report) (now : Nat) :
    (reportCondition r now).Status = outcomeStatus (some r.succeeded) := by
  unfold reportCondition
  cases h : r.succeeded <;> simp [outcomeStatus]

theorem latestOutcome_append_singleton (rs : List (Nat × Report)) (x : Nat × Report)
    (t : String) :
    latestOutcome (rs ++ [x]) t =
      if x.2.ConditionType = t then some x.2.succeeded else latestOutcome rs t := by
  unfold latestOutcome
  rw [List.reverse_append]
  by_cases h : x.2.ConditionType = t <;> simp [List.find?, h]

theorem reportAll_append_singleton (sel : ServiceSelection) (st : FeatureStoreStatus)
    (rs : List (Nat × Report)) (x : Nat × Report) :
    reportAll sel st (rs ++ [x]) =
      match report sel (reportAll sel st rs) x.1 x.2 with
      | .ok st2 => st2
      | .error _ => reportAll sel st rs := by
  simp [reportAll, List.foldl_append]

theorem client_mem_enabledSubsystems (sel : ServiceSelection) :
    ClientReadyType ∈ enabledSubsystems sel := by
  simp [enabledSubsystems]

theorem aggregatePhase_nil (sel : ServiceSelection) :
    aggregatePhase (enabledSubsystems sel) [] = PendingPhase := by
  rcases sel with ⟨_ | _, _ | _, _ | _⟩ <;> decide



theorem reportAll_invariant (sel : ServiceSelection) (applied : FeatureStoreSpec)
    (rs : List (Nat × Report)) :
    (reportAll sel (initialStatus applied) rs).Phase =
        aggregatePhase (enabledSubsystems sel)
          (reportAll sel (initialStatus applied) rs).Conditions ∧
    ∀ t ∈ enabledSubsystems sel,
      conditionStatus (reportAll sel (initialStatus applied) rs).Conditions t =
        outcomeStatus (latestOutcome rs t) := by
  induction rs using List.reverseRecOn with
  | nil =>
    refine ⟨?_, ?_⟩
    · simp [reportAll, initialStatus, aggregatePhase_nil]
    · intro t _
      rfl
  | append_singleton rs x ih =>
    rw [reportAll_append_singleton]
    unfold report
    by_cases hen : (enabledSubsystems sel).contains x.2.ConditionType = true
    · rw [if_pos hen]
      refine ⟨rfl, ?_⟩
      intro t ht
      show conditionStatus (setStatusCondition _ _) t = _
      rw [conditionStatus_setStatusCondition, latestOutcome_append_singleton,
        reportCondition_type, reportCondition_status]
      by_cases h : x.2.ConditionType = t
      · simp [h]
      · simp [h, ih.2 t ht]
    · rw [if_neg hen]
      refine ⟨ih.1, ?_⟩
      intro t ht
      rw [latestOutcome_append_singleton]
      have h : ¬ x.2.ConditionType = t := by
        intro h
        apply hen
        rw [h]
        simpa using ht
      simp [h, ih.2 t ht]

theorem mem_validateOpt {α : Type} (name : String) (validate : α → List Violation)
    (o : Option α) (v : Violation) :
    v ∈ validateOpt name validate o ↔
      ∃ a w, o = some a ∧ w ∈ validate a ∧ v = w.under name := by
  cases o with
  | none => simp [validateOpt]
  | some a =>
    simp only [validateOpt, List.mem_map, Option.some.injEq]
    constructor
    · rintro ⟨w, hw, rfl⟩
      exact ⟨a, w, rfl, hw, rfl⟩
    · rintro ⟨b, w, rfl, hw, rfl⟩
      exact ⟨w, hw, rfl⟩

theorem own_level_clean_iff {α : Type} (rules : List (Rule α)) (self : α)
    (rest : List Violation) (hrest : ∀ v ∈ rest, v.field ≠ []) :
    (∀ v ∈ violations rules self ++ rest, v.field ≠ []) ↔ violations rules self = [] := by
  constructor
  · intro h
    cases hv : violations rules self with
    | nil => rfl
    | cons v vs =>
      exfalso
      have hmem : v ∈ violations rules self := by rw [hv]; exact List.mem_cons_self v vs
      exact h v (List.mem_append_left _ hmem) (field_of_mem_violations rules self v hmem)
  · intro h v hv
    rw [h, List.nil_append] at hv
    exact hrest v hv

theorem field_of_mem_validateOpt_append {α β : Type} (n1 n2 : String)
    (v1 : α → List Violation) (v2 : β → List Violation) (o1 : Option α) (o2 : Option β) :
    ∀ v ∈ validateOpt n1 v1 o1 ++ validateOpt n2 v2 o2, v.field ≠ [] := by
  intro v hv
  rcases List.mem_append.mp hv with h | h
  · exact field_of_mem_validateOpt n1 v1 o1 v h
  · exact field_of_mem_validateOpt n2 v2 o2 v h

theorem online_validate_of_path (f : OnlineStoreFilePersistence) (h : f.Path ≠ "") :
    f.validate =
      (if has f.PvcStore = false ∧ startsWith f.Path "/" = false then
          [⟨[], "Ephemeral stores must have absolute paths."⟩] else [])
      ++ (if has f.PvcStore = true ∧ startsWith f.Path "/" = true then
          [⟨[], "PVC path must be a file name only, with no slashes."⟩] else [])
      ++ (if startsWith f.Path "s3://" = true ∨ startsWith f.Path "gs://" = true then
          [⟨[], "Online store does not support S3 or GS buckets."⟩] else []) := by
  rcases f with ⟨path, _ | pvc⟩ <;>
    cases h1 : startsWith path "/" <;> cases h2 : startsWith path "s3://" <;>
    cases h3 : startsWith path "gs://" <;>
    simp [OnlineStoreFilePersistence.validate, OnlineStoreFilePersistence.rules, violations,
      Rule.check, selectOmitEmpty_of_ne _ _ h, celStartsWith, celNot, celAnd, has,
      h1, h2, h3]

theorem online_validate_empty_path (pvc : Option PvcStore) :
    OnlineStoreFilePersistence.validate ⟨"", pvc⟩ =
      (if has pvc = false then
          [⟨[], "no such key: path evaluated on rule: Ephemeral stores must have absolute paths."⟩]
        else [])
      ++ (if has pvc = true then
          [⟨[], "no such key: path evaluated on rule: PVC path must be a file name only, with no slashes."⟩]
        else [])
      ++ [⟨[], "no such key: path evaluated on rule: Online store does not support S3 or GS buckets."⟩] := by
  rcases pvc with _ | pvc <;> rfl

theorem registry_validate_of_path (f : RegistryFilePersistence) (h : f.Path ≠ "") :
    f.validate =
      (if has f.PvcStore = false ∧ startsWith f.Path "/" = false ∧
            startsWith f.Path "s3://" = false ∧ startsWith f.Path "gs://" = false then
          [⟨[], "Ephemeral stores must have absolute paths."⟩] else [])
      ++ (if has f.PvcStore = true ∧ startsWith f.Path "/" = true then
          [⟨[], "PVC path must be a file name only, with no slashes."⟩] else [])
      ++ (if has f.PvcStore = true ∧
            (startsWith f.Path "s3://" = true ∨ startsWith f.Path "gs://" = true) then
          [⟨[], "PVC persistence does not support S3 or GS buckets."⟩] else [])
      ++ (if has f.S3AddtlKwargs = true ∧ startsWith f.Path "s3://" = false then
          [⟨[], "Additional S3 settings are available only for S3 buckets."⟩] else []) := by
  rcases f with ⟨path, _ | pvc, _ | kw⟩ <;>
    cases h1 : startsWith path "/" <;> cases h2 : startsWith path "s3://" <;>
    cases h3 : startsWith path "gs://" <;>
    simp [RegistryFilePersistence.validate, RegistryFilePersistence.rules, violations,
      Rule.check, selectOmitEmpty_of_ne _ _ h, celStartsWith, celNot, celOr, has,
      h1, h2, h3]

theorem registry_validate_empty_path (pvc : Option PvcStore)
    (kw : Option (List (String × String))) :
    RegistryFilePersistence.validate ⟨"", pvc, kw⟩ =
      (if has pvc = false then
          [⟨[], "no such key: path evaluated on rule: Ephemeral stores must have absolute paths."⟩]
        else [])
      ++ (if has pvc = true then
          [⟨[], "no such key: path evaluated on rule: PVC path must be a file name only, with no slashes."⟩]
        else [])
      ++ (if has pvc = true then
          [⟨[], "no such key: path evaluated on rule: PVC persistence does not support S3 or GS buckets."⟩]
        else [])
      ++ (if has kw = true then
          [⟨[], "no such key: path evaluated on rule: Additional S3 settings are available only for S3 buckets."⟩]
        else []) := by
  rcases pvc with _ | pvc <;> rcases kw with _ | kw <;> rfl

/-! ## Selection rules -/

/-- C1: for each of the three persistence kinds, the two selection rules of the
block are satisfied if and only if exactly one of `file` and `store` is set;
the validator of the block raises no violation on the block itself (every
violation it returns lies inside the `file` or `store` sub-block) if and only
if exactly one of the two is set; a block with both set, and a block with
neither set, is rejected by the validator of the block; and a block with
exactly one set is validated as that sub-block alone. -/
theorem persistence_selection_exactly_one :
    (∀ p : OnlineStorePersistence,
      (violations OnlineStorePersistence.rules p = [] ↔
        (p.FilePersistence.isSome = true ∧ p.StorePersistence.isSome = false) ∨
        (p.FilePersistence.isSome = false ∧ p.StorePersistence.isSome = true)) ∧
      ((∀ v ∈ p.validate, v.field ≠ []) ↔
        (p.FilePersistence.isSome = true ∧ p.StorePersistence.isSome = false) ∨
        (p.FilePersistence.isSome = false ∧ p.StorePersistence.isSome = true)) ∧
      (p.FilePersistence.isSome = p.StorePersistence.isSome → p.validate ≠ [])) ∧
    (∀ p : OfflineStorePersistence,
      (violations OfflineStorePersistence.rules p = [] ↔
        (p.FilePersistence.isSome = true ∧ p.StorePersistence.isSome = false) ∨
        (p.FilePersistence.isSome = false ∧ p.StorePersistence.isSome = true)) ∧
      ((∀ v ∈ p.validate, v.field ≠ []) ↔
        (p.FilePersistence.isSome = true ∧ p.StorePersistence.isSome = false) ∨
        (p.FilePersistence.isSome = false ∧ p.StorePersistence.isSome = true)) ∧
      (p.FilePersistence.isSome = p.StorePersistence.isSome → p.validate ≠ [])) ∧
    (∀ p : RegistryPersistence,
      (violations RegistryPersistence.rules p = [] ↔
        (p.FilePersistence.isSome = true ∧ p.StorePersistence.isSome = false) ∨
        (p.FilePersistence.isSome = false ∧ p.StorePersistence.isSome = true)) ∧
      ((∀ v ∈ p.validate, v.field ≠ []) ↔
        (p.FilePersistence.isSome = true ∧ p.StorePersistence.isSome = false) ∨
        (p.FilePersistence.isSome = false ∧ p.StorePersistence.isSome = true)) ∧
      (p.FilePersistence.isSome = p.StorePersistence.isSome → p.validate ≠ [])) ∧
    (∀ f : OnlineStoreFilePersistence,
      OnlineStorePersistence.validate ⟨some f, none⟩ = f.validate.map (Violation.under "file")) ∧
    (∀ st : OnlineStoreStorePersistence,
      OnlineStorePersistence.validate ⟨none, some st⟩ = st.validate.map (Violation.under "store")) ∧
    (∀ f : OfflineStoreFilePersistence,
      OfflineStorePersistence.validate ⟨some f, none⟩ = f.validate.map (Violation.under "file")) ∧
    (∀ st : OfflineStoreStorePersistence,
      OfflineStorePersistence.validate ⟨none, some st⟩ = st.validate.map (Violation.under "store")) ∧
    (∀ f : RegistryFilePersistence,
      RegistryPersistence.validate ⟨some f, none⟩ = f.validate.map (Violation.under "file")) ∧
    (∀ st : RegistryStorePersistence,
      RegistryPersistence.validate ⟨none, some st⟩ = st.validate.map (Violation.under "store")) := by
  refine ⟨?_, ?_, ?_, ?_, ?_, ?_, ?_, ?_, ?_⟩
  · intro p
    have h1 : violations OnlineStorePersistence.rules p = [] ↔
        (p.FilePersistence.isSome = true ∧ p.StorePersistence.isSome = false) ∨
        (p.FilePersistence.isSome = false ∧ p.StorePersistence.isSome = true) := by
      rw [violations_eq_nil]
      rcases p with ⟨_ | f, _ | s⟩ <;> simp [OnlineStorePersistence.rules, has]
    refine ⟨h1, ?_, ?_⟩
    · rw [OnlineStorePersistence.validate, List.append_assoc, own_level_clean_iff _ _ _
        (field_of_mem_validateOpt_append _ _ _ _ _ _)]
      exact h1
    · intro heq hnil
      rw [OnlineStorePersistence.validate, List.append_assoc, List.append_eq_nil] at hnil
      rcases h1.mp hnil.1 with ⟨ha, hb⟩ | ⟨ha, hb⟩ <;> simp [ha, hb] at heq
  · intro p
    have h1 : violations OfflineStorePersistence.rules p = [] ↔
        (p.FilePersistence.isSome = true ∧ p.StorePersistence.isSome = false) ∨
        (p.FilePersistence.isSome = false ∧ p.StorePersistence.isSome = true) := by
      rw [violations_eq_nil]
      rcases p with ⟨_ | f, _ | s⟩ <;> simp [OfflineStorePersistence.rules, has]
    refine ⟨h1, ?_, ?_⟩
    · rw [OfflineStorePersistence.validate, List.append_assoc, own_level_clean_iff _ _ _
        (field_of_mem_validateOpt_append _ _ _ _ _ _)]
      exact h1
    · intro heq hnil
      rw [OfflineStorePersistence.validate, List.append_assoc, List.append_eq_nil] at hnil
      rcases h1.mp hnil.1 with ⟨ha, hb⟩ | ⟨ha, hb⟩ <;> simp [ha, hb] at heq
  · intro p
    have h1 : violations RegistryPersistence.rules p = [] ↔
        (p.FilePersistence.isSome = true ∧ p.StorePersistence.isSome = false) ∨
        (p.FilePersistence.isSome = false ∧ p.StorePersistence.isSome = true) := by
      rw [violations_eq_nil]
      rcases p with ⟨_ | f, _ | s⟩ <;> simp [RegistryPersistence.rules, has]
    refine ⟨h1, ?_, ?_⟩
    · rw [RegistryPersistence.validate, List.append_assoc, own_level_clean_iff _ _ _
        (field_of_mem_validateOpt_append _ _ _ _ _ _)]
      exact h1
    · intro heq hnil
      rw [RegistryPersistence.validate, List.append_assoc, List.append_eq_nil] at hnil
      rcases h1.mp hnil.1 with ⟨ha, hb⟩ | ⟨ha, hb⟩ <;> simp [ha, hb] at heq
  · intro f
    simp [OnlineStorePersistence.validate, OnlineStorePersistence.rules, violations,
      Rule.check, has, validateOpt]
  · intro st
    simp [OnlineStorePersistence.validate, OnlineStorePersistence.rules, violations,
      Rule.check, has, validateOpt]
  · intro f
    simp [OfflineStorePersistence.validate, OfflineStorePersistence.rules, violations,
      Rule.check, has, validateOpt]
  · intro st
    simp [OfflineStorePersistence.validate, OfflineStorePersistence.rules, violations,
      Rule.check, has, validateOpt]
  · intro f
    simp [RegistryPersistence.validate, RegistryPersistence.rules, violations,
      Rule.check, has, validateOpt]
  · intro st
    simp [RegistryPersistence.validate, RegistryPersistence.rules, violations,
      Rule.check, has, validateOpt]

/-- Witness of C1: an online block with both `file` and `store`, an offline
block with neither and a registry block with both are rejected. -/
theorem persistence_selection_exactly_one_witness :
    (OnlineStorePersistence.validate ⟨some ⟨"/data/online.db", none⟩, some ⟨"redis", "s"⟩⟩ ≠ []) ∧
    (OfflineStorePersistence.validate ⟨none, none⟩ ≠ []) ∧
    (RegistryPersistence.validate ⟨some ⟨"/data/registry.db", none, none⟩, some ⟨"sql", "s"⟩⟩ ≠ []) :=
  ⟨(persistence_selection_exactly_one.1 _).2.2 rfl,
   (persistence_selection_exactly_one.2.1 _).2.2 rfl,
   (persistence_selection_exactly_one.2.2.1 _).2.2 rfl⟩

/-- C2: a store-persistence `type` is accepted if and only if it is a member of
the enumeration of its service kind; `redis` is rejected for Offline and
`bigquery` for Online. -/
theorem store_type_enum :
    (∀ t secret : String,
      OnlineStoreStorePersistence.validate ⟨t, secret⟩ = [] ↔
        t = "snowflake" ∨ t = "redis" ∨ t = "ikv" ∨ t = "datastore" ∨ t = "dynamodb" ∨
        t = "bigtable" ∨ t = "postgres" ∨ t = "cassandra" ∨ t = "mysql" ∨
        t = "hazelcast" ∨ t = "singlestore") ∧
    (∀ t secret : String,
      OfflineStoreStorePersistence.validate ⟨t, secret⟩ = [] ↔
        t = "snowflake" ∨ t = "bigquery" ∨ t = "redshift" ∨ t = "spark" ∨
        t = "postgres" ∨ t = "trino" ∨ t = "mssql") ∧
    (∀ t secret : String,
      RegistryStorePersistence.validate ⟨t, secret⟩ = [] ↔ t = "sql" ∨ t = "snowflake") ∧
    (∀ secret : String, OfflineStoreStorePersistence.validate ⟨"redis", secret⟩ ≠ []) ∧
    (∀ secret : String, OnlineStoreStorePersistence.validate ⟨"bigquery", secret⟩ ≠ []) := by
  refine ⟨?_, ?_, ?_, ?_, ?_⟩
  · intro t secret
    simp [OnlineStoreStorePersistence.validate, map_under_eq_nil, enumRule_eq_nil,
      OnlineStoreStorePersistence.typeEnum]
  · intro t secret
    simp [OfflineStoreStorePersistence.validate, map_under_eq_nil, enumRule_eq_nil,
      OfflineStoreStorePersistence.typeEnum]
  · intro t secret
    simp [RegistryStorePersistence.validate, map_under_eq_nil, enumRule_eq_nil,
      RegistryStorePersistence.typeEnum]
  · intro secret
    simp [OfflineStoreStorePersistence.validate, map_under_eq_nil, enumRule_eq_nil,
      OfflineStoreStorePersistence.typeEnum]
  · intro secret
    simp [OnlineStoreStorePersistence.validate, map_under_eq_nil, enumRule_eq_nil,
      OnlineStoreStorePersistence.typeEnum]

/-- C7: the selection rule of a Registry is satisfied if and only if exactly
one of `local` and `remote` is set; the validator raises no violation on the
Registry itself (every violation it returns lies inside `local` or `remote`)
if and only if exactly one of the two is set; a Registry with both set, and a
Registry with neither set, is rejected by the validator; and a Registry with
exactly one set is validated as that block alone. -/
theorem registry_selection_exactly_one (r : Registry) :
    (violations Registry.rules r = [] ↔
      (r.Local.isSome = true ∧ r.Remote.isSome = false) ∨
      (r.Local.isSome = false ∧ r.Remote.isSome = true)) ∧
    ((∀ v ∈ r.validate, v.field ≠ []) ↔
      (r.Local.isSome = true ∧ r.Remote.isSome = false) ∨
      (r.Local.isSome = false ∧ r.Remote.isSome = true)) ∧
    (r.Local.isSome = r.Remote.isSome → r.validate ≠ []) ∧
    (∀ l : LocalRegistryConfig,
      Registry.validate ⟨some l, none⟩ = l.validate.map (Violation.under "local")) ∧
    (∀ m : RemoteRegistryConfig,
      Registry.validate ⟨none, some m⟩ = m.validate.map (Violation.under "remote")) := by
  have h1 : violations Registry.rules r = [] ↔
      (r.Local.isSome = true ∧ r.Remote.isSome = false) ∨
      (r.Local.isSome = false ∧ r.Remote.isSome = true) := by
    rw [violations_eq_nil]
    rcases r with ⟨_ | l, _ | m⟩ <;> simp [Registry.rules, has, exists_one]
  refine ⟨h1, ?_, ?_, ?_, ?_⟩
  · rw [Registry.validate, List.append_assoc, own_level_clean_iff _ _ _
      (field_of_mem_validateOpt_append _ _ _ _ _ _)]
    exact h1
  · intro heq hnil
    rw [Registry.validate, List.append_assoc, List.append_eq_nil] at hnil
    rcases h1.mp hnil.1 with ⟨ha, hb⟩ | ⟨ha, hb⟩ <;> simp [ha, hb] at heq
  · intro l
    simp [Registry.validate, Registry.rules, violations, Rule.check, has, exists_one,
      validateOpt]
  · intro m
    simp [Registry.validate, Registry.rules, violations, Rule.check, has, exists_one,
      validateOpt]

/-- Witness of C7: a Registry with neither `local` nor `remote` is rejected. -/
theorem registry_selection_exactly_one_witness :
    Registry.validate ⟨none, none⟩ ≠ [] :=
  (registry_selection_exactly_one ⟨none, none⟩).2.2.1 rfl

/-- C8: the selection rule of a RemoteRegistryConfig is satisfied if and only
if exactly one of `hostname` and `feastRef` is set; both set and neither set
are rejected, and a hostname set to the empty string counts as set. -/
theorem remote_registry_selection_exactly_one :
    (∀ r : RemoteRegistryConfig,
      (r.validate = [] ↔
        (r.Hostname.isSome = true ∧ r.FeastRef.isSome = false) ∨
        (r.Hostname.isSome = false ∧ r.FeastRef.isSome = true)) ∧
      (r.Hostname.isSome = r.FeastRef.isSome → r.validate ≠ [])) ∧
    RemoteRegistryConfig.validate ⟨some "", none⟩ = [] ∧
    (∀ ref : FeatureStoreRef, RemoteRegistryConfig.validate ⟨some "", some ref⟩ ≠ []) := by
  have h1 : ∀ r : RemoteRegistryConfig, r.validate = [] ↔
      (r.Hostname.isSome = true ∧ r.FeastRef.isSome = false) ∨
      (r.Hostname.isSome = false ∧ r.FeastRef.isSome = true) := by
    intro r
    rw [RemoteRegistryConfig.validate, violations_eq_nil]
    rcases r with ⟨_ | h, _ | f⟩ <;> simp [RemoteRegistryConfig.rules, has, exists_one]
  refine ⟨?_, ?_, ?_⟩
  · intro r
    refine ⟨h1 r, ?_⟩
    intro heq hnil
    rcases (h1 r).mp hnil with ⟨ha, hb⟩ | ⟨ha, hb⟩ <;> simp [ha, hb] at heq
  · exact (h1 _).mpr (Or.inl ⟨rfl, rfl⟩)
  · intro ref hnil
    rcases (h1 _).mp hnil with ⟨ha, hb⟩ | ⟨ha, hb⟩
    · simp at hb
    · simp at ha

/-- Witness of C8: a RemoteRegistryConfig with both a hostname and a reference
is rejected. -/
theorem remote_registry_selection_exactly_one_witness :
    RemoteRegistryConfig.validate ⟨some "registry:80", some ⟨"fs", ""⟩⟩ ≠ [] :=
  (remote_registry_selection_exactly_one.1 _).2 rfl

/-! ## File-persistence path rules -/

/-- C3: with a volume claim attached, the online and the registry validator
accept a path that contains a slash after its first character: only a leading
slash is refused. -/
theorem pvc_path_inner_slash_accepted :
    OnlineStoreFilePersistence.validate
        ⟨"data/online.db", some ⟨"online-pvc", none, none, none⟩⟩ = [] ∧
    RegistryFilePersistence.validate
        ⟨"data/registry.db", some ⟨"registry-pvc", none, none, none⟩, none⟩ = [] ∧
    '/' ∈ "data/online.db".toList ∧ '/' ∈ "data/registry.db".toList := by
  decide

/-- C4: an online file persistence whose path begins with `s3://` or `gs://`
violates the bucket rule and is rejected, with or without a volume claim. -/
theorem online_bucket_path_rejected (f : OnlineStoreFilePersistence)
    (h : startsWith f.Path "s3://" = true ∨ startsWith f.Path "gs://" = true) :
    (⟨[], "Online store does not support S3 or GS buckets."⟩ : Violation) ∈ f.validate ∧
    f.validate ≠ [] := by
  have hne : f.Path ≠ "" := by
    rcases h with h | h <;> exact ne_empty_of_startsWith _ _ (by decide) h
  have hm : (⟨[], "Online store does not support S3 or GS buckets."⟩ : Violation)
      ∈ f.validate := by
    rw [online_validate_of_path f hne, if_pos h]
    simp
  exact ⟨hm, List.ne_nil_of_mem hm⟩

/-- Witness of C4: an `s3://` path with a volume claim and a `gs://` path
without one are both rejected. -/
theorem online_bucket_path_rejected_witness :
    OnlineStoreFilePersistence.validate
        ⟨"s3://bucket/online.db", some ⟨"online-pvc", none, none, none⟩⟩ ≠ [] ∧
    OnlineStoreFilePersistence.validate ⟨"gs://bucket/online.db", none⟩ ≠ [] :=
  ⟨(online_bucket_path_rejected _ (Or.inl (by decide))).2,
   (online_bucket_path_rejected _ (Or.inr (by decide))).2⟩

/-- C5: a registry file persistence whose `s3_additional_kwargs` map is set
(an empty map included) and whose path does not begin with `s3://` is rejected
on the additional-settings rule: the rule is violated when a path is given and
fails to evaluate when the path is omitted; when the map is absent the
violations are exactly those of the other three rules. -/
theorem registry_s3_kwargs_rule (f : RegistryFilePersistence) :
    (f.S3AddtlKwargs.isSome = true → startsWith f.Path "s3://" = false →
      f.validate ≠ [] ∧
      (f.Path ≠ "" →
        (⟨[], "Additional S3 settings are available only for S3 buckets."⟩ : Violation)
          ∈ f.validate) ∧
      (f.Path = "" →
        (⟨[], "no such key: path evaluated on rule: Additional S3 settings are available only for S3 buckets."⟩ :
          Violation) ∈ f.validate)) ∧
    (f.S3AddtlKwargs = none →
      f.validate = violations RegistryFilePersistence.rules.dropLast f) := by
  constructor
  · intro hk hp
    have h1 : f.Path ≠ "" →
        (⟨[], "Additional S3 settings are available only for S3 buckets."⟩ : Violation)
          ∈ f.validate := by
      intro hne
      rw [registry_validate_of_path f hne]
      simp [has, hk, hp]
    have h2 : f.Path = "" →
        (⟨[], "no such key: path evaluated on rule: Additional S3 settings are available only for S3 buckets."⟩ :
          Violation) ∈ f.validate := by
      intro he
      rcases f with ⟨path, pvc, kw⟩
      simp only at he hk
      subst he
      rw [registry_validate_empty_path]
      simp [has, hk]
    refine ⟨?_, h1, h2⟩
    by_cases he : f.Path = ""
    · exact List.ne_nil_of_mem (h2 he)
    · exact List.ne_nil_of_mem (h1 he)
  · intro hk
    rcases f with ⟨path, pvc, kw⟩
    simp only at hk
    subst hk
    simp [RegistryFilePersistence.validate, RegistryFilePersistence.rules, violations,
      Rule.check, has]

/-- Witness of C5: an absolute path with an empty map is rejected, and without
the map the additional-settings rule contributes nothing. -/
theorem registry_s3_kwargs_rule_witness :
    RegistryFilePersistence.validate ⟨"/data/registry.db", none, some []⟩ ≠ [] ∧
    RegistryFilePersistence.validate ⟨"/data/registry.db", none, none⟩
      = violations RegistryFilePersistence.rules.dropLast ⟨"/data/registry.db", none, none⟩ :=
  ⟨((registry_s3_kwargs_rule ⟨"/data/registry.db", none, some []⟩).1 rfl (by decide)).1,
   (registry_s3_kwargs_rule ⟨"/data/registry.db", none, none⟩).2 rfl⟩

/-- C6, as stated, fails for the Offline kind: the offline block
`type: dask` without a volume claim is accepted although it has no path. -/
theorem offline_file_path_rule_counterexample :
    (FilePersistence.offline ⟨"dask", none⟩).pvc = none ∧
    (FilePersistence.offline ⟨"dask", none⟩).hasS3AddtlKwargs = false ∧
    ¬ ((FilePersistence.offline ⟨"dask", none⟩).validate = [] ↔
        ∃ p, (FilePersistence.offline ⟨"dask", none⟩).path? = some p ∧
          (startsWith p "/" = true ∨
            ((FilePersistence.offline ⟨"dask", none⟩).offlineOrRegistry = true ∧
              (startsWith p "s3://" = true ∨ startsWith p "gs://" = true)))) := by
  refine ⟨rfl, rfl, ?_⟩
  intro h
  have hv : (FilePersistence.offline ⟨"dask", none⟩).validate = [] := by decide
  obtain ⟨p, hp, _⟩ := h.1 hv
  simp [FilePersistence.path?] at hp

/-- C6, amended: without a volume claim an online file persistence is accepted
if and only if its path begins with `/`, and a registry file persistence
(without additional-options map) if and only if its path begins with `/`,
`s3://` or `gs://`; an offline file persistence has no path and is accepted if
and only if its `type` is omitted, `dask` or `duckdb`. -/
theorem file_path_rule_without_pvc :
    (∀ f : OnlineStoreFilePersistence, f.PvcStore = none →
      (f.validate = [] ↔ startsWith f.Path "/" = true)) ∧
    (∀ f : RegistryFilePersistence, f.PvcStore = none → f.S3AddtlKwargs = none →
      (f.validate = [] ↔
        startsWith f.Path "/" = true ∨ startsWith f.Path "s3://" = true ∨
          startsWith f.Path "gs://" = true)) ∧
    (∀ f : OfflineStoreFilePersistence,
      (FilePersistence.offline f).path? = none ∧
      (f.validate = [] ↔ f.Type_ = "" ∨ f.Type_ = "dask" ∨ f.Type_ = "duckdb")) := by
  refine ⟨?_, ?_, ?_⟩
  · intro f hpvc
    by_cases he : f.Path = ""
    · rcases f with ⟨path, pvc⟩
      simp only at he hpvc
      subst he
      subst hpvc
      rw [online_validate_empty_path]
      have hs : startsWith "" "/" = false := by decide
      simp [has, hs]
    · rw [online_validate_of_path f he]
      constructor
      · intro h
        by_contra hn
        simp [has, hpvc, hn] at h
      · intro h
        have hb := not_bucket_of_absolute f.Path h
        simp [has, hpvc, h, hb.1, hb.2]
  · intro f hpvc hkw
    by_cases he : f.Path = ""
    · rcases f with ⟨path, pvc, kw⟩
      simp only at he hpvc hkw
      subst he
      subst hpvc
      subst hkw
      rw [registry_validate_empty_path]
      have h1 : startsWith "" "/" = false := by decide
      have h2 : startsWith "" "s3://" = false := by decide
      have h3 : startsWith "" "gs://" = false := by decide
      simp [has, h1, h2, h3]
    · rw [registry_validate_of_path f he]
      cases h1 : startsWith f.Path "/" <;> cases h2 : startsWith f.Path "s3://" <;>
        cases h3 : startsWith f.Path "gs://" <;> simp [has, hpvc, hkw]
  · intro f
    refine ⟨rfl, ?_⟩
    unfold OfflineStoreFilePersistence.validate
    by_cases h : f.Type_ = ""
    · simp [h]
    · simp [h, map_under_eq_nil, enumRule_eq_nil, OfflineStoreFilePersistence.typeEnum]

/-- Witness of C6 (amended): an absolute online path and a registry bucket
path, both without a volume claim. -/
theorem file_path_rule_without_pvc_witness :
    (OnlineStoreFilePersistence.validate ⟨"/data/online.db", none⟩ = [] ↔
      startsWith "/data/online.db" "/" = true) ∧
    (RegistryFilePersistence.validate ⟨"s3://bucket/registry.db", none, none⟩ = [] ↔
      startsWith "s3://bucket/registry.db" "/" = true ∨
        startsWith "s3://bucket/registry.db" "s3://" = true ∨
        startsWith "s3://bucket/registry.db" "gs://" = true) :=
  ⟨file_path_rule_without_pvc.1 ⟨"/data/online.db", none⟩ rfl,
   file_path_rule_without_pvc.2.1 ⟨"s3://bucket/registry.db", none, none⟩ rfl rfl⟩

/-! ## Project identifier -/

/-- C9: the `FeastProject` pattern accepts a string if and only if it is
non-empty, each of its characters is an ASCII letter, an ASCII digit or an
underscore, and its first character is not an underscore. -/
theorem feast_project_pattern (p : String) :
    (patternRule feastProjectPattern p = [] ↔
      p ≠ "" ∧ (∀ c ∈ p.toList, c.isAlpha = true ∨ c.isDigit = true ∨ c = '_') ∧
        p.toList.head? ≠ some '_') ∧
    (FeatureStoreSpec.accepts ⟨p, none⟩ = true ↔ patternRule feastProjectPattern p = []) := by
  constructor
  · rw [patternRule_eq_nil, matchAll_feastProjectPattern, Ne, ← toList_eq_nil]
    cases hs : p.toList with
    | nil => simp
    | cons c cs =>
      simp only [Bool.and_eq_true, List.all_eq_true, inClass_alnum, inClass_word,
        Bool.or_eq_true, decide_eq_true_eq, List.mem_cons, List.head?_cons]
      constructor
      · rintro ⟨hc, hcs⟩
        refine ⟨by simp, ?_, ?_⟩
        · rintro x (rfl | hx)
          · rcases hc with h | h
            · exact Or.inl h
            · exact Or.inr (Or.inl h)
          · rcases hcs x hx with (h | h) | h
            · exact Or.inl h
            · exact Or.inr (Or.inl h)
            · exact Or.inr (Or.inr h)
        · intro h
          have hc2 : c = '_' := by simpa using h
          subst hc2
          revert hc
          decide
      · rintro ⟨_, hall, hhead⟩
        constructor
        · rcases hall c (Or.inl rfl) with h | h | h
          · exact Or.inl h
          · exact Or.inr h
          · exact absurd (by rw [h]) hhead
        · intro x hx
          rcases hall x (Or.inr hx) with h | h | h
          · exact Or.inl (Or.inl h)
          · exact Or.inl (Or.inr h)
          · exact Or.inr h
  · simp [FeatureStoreSpec.accepts, FeatureStoreSpec.validate, validateOpt, map_under_eq_nil]

/-! ## Readiness aggregation -/

/-- C10: after any stream of reports, the phase is Failed if the latest outcome
of some enabled subsystem is a failure, otherwise Ready if the latest outcome
of every enabled subsystem is a success, otherwise Pending; with no report the
phase is Pending, and two streams that agree on the latest outcomes of the
enabled subsystems give the same phase. -/
theorem aggregate_phase (sel : ServiceSelection) (applied : FeatureStoreSpec)
    (rs : List (Nat × Report)) :
    ((∃ t ∈ enabledSubsystems sel, latestOutcome rs t = some false) →
      (reportAll sel (initialStatus applied) rs).Phase = FailedPhase) ∧
    ((¬ ∃ t ∈ enabledSubsystems sel, latestOutcome rs t = some false) →
      (∀ t ∈ enabledSubsystems sel, latestOutcome rs t = some true) →
      (reportAll sel (initialStatus applied) rs).Phase = ReadyPhase) ∧
    ((¬ ∃ t ∈ enabledSubsystems sel, latestOutcome rs t = some false) →
      (¬ ∀ t ∈ enabledSubsystems sel, latestOutcome rs t = some true) →
      (reportAll sel (initialStatus applied) rs).Phase = PendingPhase) ∧
    (reportAll sel (initialStatus applied) []).Phase = PendingPhase ∧
    (∀ rs2 : List (Nat × Report),
      (∀ t ∈ enabledSubsystems sel, latestOutcome rs2 t = latestOutcome rs t) →
      (reportAll sel (initialStatus applied) rs2).Phase =
        (reportAll sel (initialStatus applied) rs).Phase) ∧
    FailedPhase = "Failed" ∧ ReadyPhase = "Ready" ∧ PendingPhase = "Pending" := by
  have key : ∀ rs : List (Nat × Report),
      (reportAll sel (initialStatus applied) rs).Phase =
        if (enabledSubsystems sel).any
            (fun t => outcomeStatus (latestOutcome rs t) == .ConditionFalse) then FailedPhase
        else if (enabledSubsystems sel).all
            (fun t => outcomeStatus (latestOutcome rs t) == .ConditionTrue) then ReadyPhase
        else PendingPhase := by
    intro rs
    obtain ⟨hp, hs⟩ := reportAll_invariant sel applied rs
    rw [hp, aggregatePhase]
    have h1 : (enabledSubsystems sel).any
          (fun t => conditionStatus (reportAll sel (initialStatus applied) rs).Conditions t
            == .ConditionFalse) =
        (enabledSubsystems sel).any
          (fun t => outcomeStatus (latestOutcome rs t) == .ConditionFalse) := by
      rw [Bool.eq_iff_iff]
      simp only [List.any_eq_true]
      constructor
      · rintro ⟨t, ht, h⟩
        exact ⟨t, ht, by rw [← hs t ht]; exact h⟩
      · rintro ⟨t, ht, h⟩
        exact ⟨t, ht, by rw [hs t ht]; exact h⟩
    have h2 : (enabledSubsystems sel).all
          (fun t => conditionStatus (reportAll sel (initialStatus applied) rs).Conditions t
            == .ConditionTrue) =
        (enabledSubsystems sel).all
          (fun t => outcomeStatus (latestOutcome rs t) == .ConditionTrue) := by
      rw [Bool.eq_iff_iff]
      simp only [List.all_eq_true]
      constructor
      · intro h t ht
        rw [← hs t ht]; exact h t ht
      · intro h t ht
        rw [hs t ht]; exact h t ht
    rw [h1, h2]
  have hF : ∀ o : Option Bool, (outcomeStatus o == .ConditionFalse) = true ↔ o = some false := by
    intro o
    rcases o with _ | _ | _ <;> simp [outcomeStatus]
  have hT : ∀ o : Option Bool, (outcomeStatus o == .ConditionTrue) = true ↔ o = some true := by
    intro o
    rcases o with _ | _ | _ <;> simp [outcomeStatus]
  have hany : ∀ rs : List (Nat × Report),
      (enabledSubsystems sel).any
        (fun t => outcomeStatus (latestOutcome rs t) == .ConditionFalse) = true ↔
      ∃ t ∈ enabledSubsystems sel, latestOutcome rs t = some false := by
    intro rs
    simp only [List.any_eq_true, hF]
  have hall : ∀ rs : List (Nat × Report),
      (enabledSubsystems sel).all
        (fun t => outcomeStatus (latestOutcome rs t) == .ConditionTrue) = true ↔
      ∀ t ∈ enabledSubsystems sel, latestOutcome rs t = some true := by
    intro rs
    simp only [List.all_eq_true, hT]
  refine ⟨?_, ?_, ?_, ?_, ?_, rfl, rfl, rfl⟩
  · intro h
    rw [key, if_pos ((hany rs).2 h)]
  · intro h1 h2
    rw [key, if_neg (fun h => h1 ((hany rs).1 h)), if_pos ((hall rs).2 h2)]
  · intro h1 h2
    rw [key, if_neg (fun h => h1 ((hany rs).1 h)), if_neg (fun h => h2 ((hall rs).1 h))]
  · rfl
  · intro rs2 h
    rw [key, key]
    have e1 : (enabledSubsystems sel).any
          (fun t => outcomeStatus (latestOutcome rs2 t) == .ConditionFalse) =
        (enabledSubsystems sel).any
          (fun t => outcomeStatus (latestOutcome rs t) == .ConditionFalse) := by
      rw [Bool.eq_iff_iff, hany, hany]
      constructor
      · rintro ⟨t, ht, hh⟩; exact ⟨t, ht, by rw [← h t ht]; exact hh⟩
      · rintro ⟨t, ht, hh⟩; exact ⟨t, ht, by rw [h t ht]; exact hh⟩
    have e2 : (enabledSubsystems sel).all
          (fun t => outcomeStatus (latestOutcome rs2 t) == .ConditionTrue) =
        (enabledSubsystems sel).all
          (fun t => outcomeStatus (latestOutcome rs t) == .ConditionTrue) := by
      rw [Bool.eq_iff_iff, hall, hall]
      constructor
      · intro hh t ht; rw [← h t ht]; exact hh t ht
      · intro hh t ht; rw [h t ht]; exact hh t ht
    rw [e1, e2]

/-- Witness of C10: with OnlineStore and Registry selected, three successes
give Ready, a later Registry failure gives Failed, a single success gives
Pending, and an extra report for the unselected OfflineStore changes nothing. -/
theorem aggregate_phase_witness :
    (reportAll ⟨false, true, true⟩ (initialStatus ⟨"feast", none⟩)
      [(1, ⟨"Registry", true, ""⟩), (2, ⟨"OnlineStore", true, ""⟩),
       (3, ⟨"Client", true, ""⟩)]).Phase = ReadyPhase ∧
    (reportAll ⟨false, true, true⟩ (initialStatus ⟨"feast", none⟩)
      [(1, ⟨"OnlineStore", true, ""⟩), (2, ⟨"Registry", false, "no image"⟩)]).Phase
        = FailedPhase ∧
    (reportAll ⟨false, true, true⟩ (initialStatus ⟨"feast", none⟩)
      [(1, ⟨"Registry", true, ""⟩)]).Phase = PendingPhase ∧
    (reportAll ⟨false, true, true⟩ (initialStatus ⟨"feast", none⟩)
      [(1, ⟨"Registry", true, ""⟩), (2, ⟨"OfflineStore", false, "x"⟩)]).Phase =
      (reportAll ⟨false, true, true⟩ (initialStatus ⟨"feast", none⟩)
        [(1, ⟨"Registry", true, ""⟩)]).Phase :=
  ⟨(aggregate_phase ⟨false, true, true⟩ ⟨"feast", none⟩
      [(1, ⟨"Registry", true, ""⟩), (2, ⟨"OnlineStore", true, ""⟩),
       (3, ⟨"Client", true, ""⟩)]).2.1 (by decide) (by decide),
   (aggregate_phase ⟨false, true, true⟩ ⟨"feast", none⟩
      [(1, ⟨"OnlineStore", true, ""⟩), (2, ⟨"Registry", false, "no image"⟩)]).1 (by decide),
   (aggregate_phase ⟨false, true, true⟩ ⟨"feast", none⟩
      [(1, ⟨"Registry", true, ""⟩)]).2.2.1 (by decide) (by decide),
   (aggregate_phase ⟨false, true, true⟩ ⟨"feast", none⟩
      [(1, ⟨"Registry", true, ""⟩)]).2.2.2.2.1
      [(1, ⟨"Registry", true, ""⟩), (2, ⟨"OfflineStore", false, "x"⟩)] (by decide)⟩

/-! ## Condition vocabulary -/

/-- C11, as stated, fails for the two stores: their success messages write the
subsystem name as two words, so they are not the condition type followed by
" installation complete". -/
theorem store_ready_message_counterexample :
    OfflineStoreReadyMessage ≠ OfflineStoreReadyType ++ " installation complete" ∧
    OnlineStoreReadyMessage ≠ OnlineStoreReadyType ++ " installation complete" := by
  decide

/-- C11, amended: the success reason is "Ready"; the success message is the
condition type followed by " installation complete" for Client and Registry,
and is "Offline Store installation complete" and "Online Store installation
complete" for the two stores; the failure reason of each of the four condition
types is the type followed by "DeploymentFailed". -/
theorem condition_vocabulary :
    ReadyReason = "Ready" ∧
    ClientReadyMessage = ClientReadyType ++ " installation complete" ∧
    RegistryReadyMessage = RegistryReadyType ++ " installation complete" ∧
    OfflineStoreReadyMessage = "Offline Store installation complete" ∧
    OnlineStoreReadyMessage = "Online Store installation complete" ∧
    ClientFailedReason = ClientReadyType ++ "DeploymentFailed" ∧
    OfflineStoreFailedReason = OfflineStoreReadyType ++ "DeploymentFailed" ∧
    OnlineStoreFailedReason = OnlineStoreReadyType ++ "DeploymentFailed" ∧
    RegistryFailedReason = RegistryReadyType ++ "DeploymentFailed" ∧
    ClientReadyType = "Client" ∧ OfflineStoreReadyType = "OfflineStore" ∧
    OnlineStoreReadyType = "OnlineStore" ∧ RegistryReadyType = "Registry" := by
  decide

/-! ## Absent persistence -/

/-- C12: an OfflineStore, OnlineStore or LocalRegistryConfig without a
persistence block raises no violation, whatever its container settings are;
every violation of such a service comes from a persistence block that is
present; and in a whole configuration no violation lies under a service whose
persistence block is absent. -/
theorem absent_persistence_is_legal :
    (∀ cfg : ServiceConfigs, OfflineStore.validate ⟨cfg, none⟩ = []) ∧
    (∀ cfg : ServiceConfigs, OnlineStore.validate ⟨cfg, none⟩ = []) ∧
    (∀ cfg : ServiceConfigs, LocalRegistryConfig.validate ⟨cfg, none⟩ = []) ∧
    (∀ (s : OfflineStore) (v : Violation), v ∈ s.validate →
      s.Persistence.isSome = true ∧ v.field.head? = some "persistence") ∧
    (∀ (s : OnlineStore) (v : Violation), v ∈ s.validate →
      s.Persistence.isSome = true ∧ v.field.head? = some "persistence") ∧
    (∀ (s : LocalRegistryConfig) (v : Violation), v ∈ s.validate →
      s.Persistence.isSome = true ∧ v.field.head? = some "persistence") ∧
    (∀ (spec : FeatureStoreSpec) (sv : FeatureStoreServices) (s : OfflineStore),
      spec.Services = some sv → sv.OfflineStore = some s → s.Persistence = none →
      ∀ v ∈ spec.validate, ¬ (["services", "offlineStore"] <+: v.field)) ∧
    (∀ (spec : FeatureStoreSpec) (sv : FeatureStoreServices) (s : OnlineStore),
      spec.Services = some sv → sv.OnlineStore = some s → s.Persistence = none →
      ∀ v ∈ spec.validate, ¬ (["services", "onlineStore"] <+: v.field)) ∧
    (∀ (spec : FeatureStoreSpec) (sv : FeatureStoreServices) (r : Registry)
        (s : LocalRegistryConfig),
      spec.Services = some sv → sv.Registry = some r → r.Local = some s →
      s.Persistence = none →
      ∀ v ∈ spec.validate, ¬ (["services", "registry", "local"] <+: v.field)) := by
  refine ⟨fun _ => rfl, fun _ => rfl, fun _ => rfl, ?_, ?_, ?_, ?_, ?_, ?_⟩
  · intro s v hv
    rw [OfflineStore.validate, mem_validateOpt] at hv
    obtain ⟨a, w, ha, _, rfl⟩ := hv
    simp [ha, Violation.under]
  · intro s v hv
    rw [OnlineStore.validate, mem_validateOpt] at hv
    obtain ⟨a, w, ha, _, rfl⟩ := hv
    simp [ha, Violation.under]
  · intro s v hv
    rw [LocalRegistryConfig.validate, mem_validateOpt] at hv
    obtain ⟨a, w, ha, _, rfl⟩ := hv
    simp [ha, Violation.under]
  · intro spec sv s hsv hs hp v hv
    have hnil : s.validate = [] := by
      simp [OfflineStore.validate, hp, validateOpt]
    simp only [FeatureStoreSpec.validate, hsv, List.mem_append, mem_validateOpt,
      List.mem_map, FeatureStoreServices.validate, Option.some.injEq] at hv
    rcases hv with ⟨w, _, rfl⟩ | ⟨a, w, rfl, hw, rfl⟩
    · simp [Violation.under]
    · rcases hw with (⟨b, u, hb, hu, rfl⟩ | ⟨b, u, _, _, rfl⟩) | ⟨b, u, _, _, rfl⟩
      · obtain rfl : s = b := Option.some.inj (hs.symm.trans hb)
        rw [hnil] at hu
        simp at hu
      · simp [Violation.under]
      · simp [Violation.under]
  · intro spec sv s hsv hs hp v hv
    have hnil : s.validate = [] := by
      simp [OnlineStore.validate, hp, validateOpt]
    simp only [FeatureStoreSpec.validate, hsv, List.mem_append, mem_validateOpt,
      List.mem_map, FeatureStoreServices.validate, Option.some.injEq] at hv
    rcases hv with ⟨w, _, rfl⟩ | ⟨a, w, rfl, hw, rfl⟩
    · simp [Violation.under]
    · rcases hw with (⟨b, u, _, _, rfl⟩ | ⟨b, u, hb, hu, rfl⟩) | ⟨b, u, _, _, rfl⟩
      · simp [Violation.under]
      · obtain rfl : s = b := Option.some.inj (hs.symm.trans hb)
        rw [hnil] at hu
        simp at hu
      · simp [Violation.under]
  · intro spec sv r s hsv hr hs hp v hv
    have hnil : s.validate = [] := by
      simp [LocalRegistryConfig.validate, hp, validateOpt]
    simp only [FeatureStoreSpec.validate, hsv, List.mem_append, mem_validateOpt,
      List.mem_map, FeatureStoreServices.validate, Option.some.injEq] at hv
    rcases hv with ⟨w, _, rfl⟩ | ⟨a, w, rfl, hw, rfl⟩
    · simp [Violation.under]
    · rcases hw with (⟨b, u, _, _, rfl⟩ | ⟨b, u, _, _, rfl⟩) | ⟨b, u, hb, hu, rfl⟩
      · simp [Violation.under]
      · simp [Violation.under]
      · obtain rfl : r = b := Option.some.inj (hr.symm.trans hb)
        simp only [Registry.validate, List.mem_append, mem_validateOpt,
          mem_violations] at hu
        rcases hu with (hq | ⟨c, x, hc, hx, rfl⟩) | ⟨c, x, _, _, rfl⟩
        · have hf := field_of_mem_violations Registry.rules r u
            ((mem_violations Registry.rules r u).mpr hq)
          simp [Violation.under, hf]
        · obtain rfl : s = c := Option.some.inj (hs.symm.trans hc)
          rw [hnil] at hx
          simp at hx
        · simp [Violation.under]

/-- Witness of C12: a configuration whose offline store has an image but no
persistence and whose online store has an empty persistence block; no violation
lies under the offline store, and the violation of the online store is raised
under its present persistence block. -/
theorem absent_persistence_is_legal_witness :
    (∀ v ∈ FeatureStoreSpec.validate
        ⟨"feast", some ⟨some ⟨⟨⟨some "feast:latest"⟩, ⟨none, none⟩⟩, none⟩,
          some ⟨⟨⟨none⟩, ⟨none, none⟩⟩, some ⟨none, none⟩⟩, none⟩⟩,
      ¬ (["services", "offlineStore"] <+: v.field)) ∧
    ((OnlineStore.mk ⟨⟨none⟩, ⟨none, none⟩⟩ (some ⟨none, none⟩)).Persistence.isSome = true ∧
      (Violation.mk ["persistence"] "Either file or store persistence are required.").field.head?
        = some "persistence") :=
  ⟨absent_persistence_is_legal.2.2.2.2.2.2.1 _ _ _ rfl rfl rfl,
   absent_persistence_is_legal.2.2.2.2.1 _ _ (by decide)⟩

/-! ## Registry file persistence with a volume claim -/

/-- C13: a registry file persistence with a volume claim whose path begins
with `s3://` or `gs://` violates the third rule and is rejected. -/
theorem registry_pvc_bucket_path_rejected (f : RegistryFilePersistence)
    (hpvc : f.PvcStore.isSome = true)
    (h : startsWith f.Path "s3://" = true ∨ startsWith f.Path "gs://" = true) :
    (⟨[], "PVC persistence does not support S3 or GS buckets."⟩ : Violation) ∈ f.validate ∧
    f.validate ≠ [] := by
  have hne : f.Path ≠ "" := by
    rcases h with h | h <;> exact ne_empty_of_startsWith _ _ (by decide) h
  have hm : (⟨[], "PVC persistence does not support S3 or GS buckets."⟩ : Violation)
      ∈ f.validate := by
    rw [registry_validate_of_path f hne]
    have hc : has f.PvcStore = true ∧
        (startsWith f.Path "s3://" = true ∨ startsWith f.Path "gs://" = true) := ⟨hpvc, h⟩
    rw [if_pos hc]
    simp
  exact ⟨hm, List.ne_nil_of_mem hm⟩

/-- Witness of C13: an `s3://` path with a volume claim is rejected. -/
theorem registry_pvc_bucket_path_rejected_witness :
    RegistryFilePersistence.validate
      ⟨"s3://bucket/registry.db", some ⟨"registry-pvc", none, none, none⟩, none⟩ ≠ [] :=
  (registry_pvc_bucket_path_rejected
    ⟨"s3://bucket/registry.db", some ⟨"registry-pvc", none, none, none⟩, none⟩ rfl
    (Or.inl (by decide))).2

/-- C14: a registry file persistence with both a volume claim and the
`s3_additional_kwargs` map is rejected, and no other path would make it
accepted. -/
theorem registry_pvc_with_s3_kwargs_rejected (f : RegistryFilePersistence)
    (hpvc : f.PvcStore.isSome = true) (hkw : f.S3AddtlKwargs.isSome = true) :
    f.validate ≠ [] ∧
    ¬ ∃ path : String,
      RegistryFilePersistence.validate ⟨path, f.PvcStore, f.S3AddtlKwargs⟩ = [] := by
  have key : ∀ path : String,
      RegistryFilePersistence.validate ⟨path, f.PvcStore, f.S3AddtlKwargs⟩ ≠ [] := by
    intro path hnil
    obtain ⟨pvc, hp⟩ := Option.isSome_iff_exists.mp hpvc
    obtain ⟨kw, hk⟩ := Option.isSome_iff_exists.mp hkw
    rw [hp, hk] at hnil
    by_cases he : path = ""
    · subst he
      rw [registry_validate_empty_path] at hnil
      simp [has] at hnil
    · rw [registry_validate_of_path _ he] at hnil
      cases h2 : startsWith path "s3://" <;> simp [has, h2] at hnil
  refine ⟨key f.Path, ?_⟩
  rintro ⟨path, h⟩
  exact key path h

/-- Witness of C14: a bare file name with a volume claim and an empty map is
rejected. -/
theorem registry_pvc_with_s3_kwargs_rejected_witness :
    RegistryFilePersistence.validate
      ⟨"registry.db", some ⟨"registry-pvc", none, none, none⟩, some []⟩ ≠ [] :=
  (registry_pvc_with_s3_kwargs_rejected
    ⟨"registry.db", some ⟨"registry-pvc", none, none, none⟩, some []⟩ rfl rfl).1

/-! ## Omitted path -/

/-- C15: an online or a registry file persistence that omits its path is
rejected with or without a volume claim, although the field is marked
optional: without a volume claim the absolute-path rule fails to evaluate, with
a volume claim the file-name rule (and the bucket rule) fails to evaluate,
because each reads `self.path` and the key is absent. -/
theorem omitted_path_rejected :
    (∀ pvc : Option PvcStore, OnlineStoreFilePersistence.validate ⟨"", pvc⟩ ≠ []) ∧
    (∀ (pvc : Option PvcStore) (kw : Option (List (String × String))),
      RegistryFilePersistence.validate ⟨"", pvc, kw⟩ ≠ []) ∧
    OnlineStoreFilePersistence.validate ⟨"", none⟩ =
      [⟨[], "no such key: path evaluated on rule: Ephemeral stores must have absolute paths."⟩,
       ⟨[], "no such key: path evaluated on rule: Online store does not support S3 or GS buckets."⟩] ∧
    RegistryFilePersistence.validate ⟨"", none, none⟩ =
      [⟨[], "no such key: path evaluated on rule: Ephemeral stores must have absolute paths."⟩] ∧
    (∀ pvc : PvcStore, OnlineStoreFilePersistence.validate ⟨"", some pvc⟩ =
      [⟨[], "no such key: path evaluated on rule: PVC path must be a file name only, with no slashes."⟩,
       ⟨[], "no such key: path evaluated on rule: Online store does not support S3 or GS buckets."⟩]) ∧
    (∀ pvc : PvcStore, RegistryFilePersistence.validate ⟨"", some pvc, none⟩ =
      [⟨[], "no such key: path evaluated on rule: PVC path must be a file name only, with no slashes."⟩,
       ⟨[], "no such key: path evaluated on rule: PVC persistence does not support S3 or GS buckets."⟩]) := by
  refine ⟨?_, ?_, ?_, ?_, ?_, ?_⟩
  · intro pvc
    rw [online_validate_empty_path]
    simp
  · intro pvc kw
    rw [registry_validate_empty_path]
    rcases pvc with _ | pvc <;> simp [has]
  · rw [online_validate_empty_path]
    simp [has]
  · rw [registry_validate_empty_path]
    simp [has]
  · intro pvc
    rw [online_validate_empty_path]
    simp [has]
  · intro pvc
    rw [registry_validate_empty_path]
    simp [has]

end Feast
